import Mathlib

/-!
Shallow embedding of the VoiceBridge backend conversational pipeline
(`core/utils.py` and `core/views.py`) and proofs about it.

Modelling conventions:
* Python byte strings are `List Nat`.
* A Python value that may be `None` is an `Option`.
* A call into an external service is an oracle field of an environment
  record; a call that the Python code observes through an `except` clause
  is an `Except Unit α`, a call that already returns `None` on failure is
  an `Option α`.
* Python truthiness of strings / bytes / `None` is made explicit through
  `pyStrTruthy` / `pyBytesTruthy`.
* Apostrophes inside message literals are written with the `\x27` escape.
-/

/-- Python `str.strip` / Lean whitespace on a character list (space, tab,
newline, carriage return — the whitespace the code's payloads contain). -/
def stripChars (l : List Char) : List Char :=
  ((l.dropWhile Char.isWhitespace).reverse.dropWhile Char.isWhitespace).reverse

/-- Python `str.strip` (kernel-reducible; `String.trim` is not). -/
def pyStrip (s : String) : String := ⟨stripChars s.data⟩

/-- Python `str.lower` (ASCII case mapping, which covers every character the
pipeline compares: the four language-code tokens). -/
def pyLower (s : String) : String := ⟨s.data.map Char.toLower⟩

/-- Python `str.startswith` (kernel-reducible). -/
def pyStartsWith (s pre : String) : Bool := pre.data.isPrefixOf s.data

/-- One left-to-right scan splitting `l` at every (leftmost, non-overlapping)
occurrence of the separator, like Python `str.split(sep)`.  `sepRev` is the
reversed separator, `accRev` the reversed current segment; a segment is cut
as soon as it ends with the separator. -/
def splitSepAux (sepRev : List Char) : List Char → List Char → List (List Char)
  | [], accRev => [accRev.reverse]
  | c :: rest, accRev =>
      let accRev' := c :: accRev
      if sepRev.isPrefixOf accRev' then
        (accRev'.drop sepRev.length).reverse :: splitSepAux sepRev rest []
      else
        splitSepAux sepRev rest accRev'

/-- Python `s.split(sep)` for a non-empty separator (kernel-reducible;
`String.splitOn` is not).  Agrees with Python on every input because both
scan left to right and consume each match before looking further. -/
def pySplit (s sep : String) : List String :=
  (splitSepAux sep.data.reverse s.data []).map (fun l => ⟨l⟩)

/-- Truthiness of an optional Python string: `None` and `""` are falsy. -/
def pyStrTruthy : Option String → Bool
  | none => false
  | some s => s ≠ ""

/-- Truthiness of an optional Python byte string: `None` and `b""` are falsy. -/
def pyBytesTruthy : Option (List Nat) → Bool
  | none => false
  | some b => b ≠ []

/-- The literal marker used by `safe_gemini_conversational_audio_or_text`
(`core/utils.py` line 238): `lang_code_prefix = "Language Code:"`. -/
def langCodeMarker : String := "Language Code:"

/-- The four supported language codes (`core/utils.py` line 247). -/
def supportedCodes : List String := ["yo", "ig", "ha", "en"]

/-- Model of Python `sep in s` via `splitOn`: for a fixed non-overlapping
separator, the separator occurs in `s` iff `splitOn` produces ≥ 2 parts. -/
def containsMarker (s : String) : Bool :=
  (pySplit s langCodeMarker).length ≥ 2

/-- The text before the last occurrence of the marker, i.e. `parts[0]` of
Python `s.rsplit(lang_code_prefix, 1)`.  `splitOn` cuts at every
(non-overlapping) occurrence; re-joining all parts but the last with the
separator reconstructs the text before the last occurrence.  (The marker
`"Language Code:"` has no self-overlap, so left-to-right and
right-to-left occurrence scans agree.) -/
def beforeLastMarker (s : String) : String :=
  String.intercalate langCodeMarker (pySplit s langCodeMarker).dropLast

/-- The text after the last occurrence of the marker, i.e. `parts[1]` of
Python `s.rsplit(lang_code_prefix, 1)`. -/
def afterLastMarker (s : String) : String :=
  (pySplit s langCodeMarker).getLastD ""

/-- The `conversational_response` value computed by
`core/utils.py` lines 242-253 before the emptiness check: the stripped
text before the last marker when the marker is present, otherwise the
whole (already stripped) response. -/
def rawReplyOf (full : String) : String :=
  if containsMarker full then pyStrip (beforeLastMarker full) else full

/-- Marker parsing step of `safe_gemini_conversational_audio_or_text`
(`core/utils.py` lines 238-259).  Input is `full_gemini_response`, i.e.
`response.text.strip()`.  Returns `(conversational_response, detected_lang)`
with the reply `none` exactly when the code would return `None` at line 257. -/
def parseGeminiOutput (full : String) : Option String × String :=
  if containsMarker full then
    let conversational_response := pyStrip (beforeLastMarker full)
    let code_raw := pyLower (pyStrip (afterLastMarker full))
    let detected_lang := if code_raw ∈ supportedCodes then code_raw else "en"
    if conversational_response = "" then (none, "en")
    else (some conversational_response, detected_lang)
  else
    if full = "" then (none, "en")
    else (some full, "en")

/-- Modelled from the words of claim C1 (spec §4.3 parsing rule), for
comparison with `parseGeminiOutput`: split on the LAST occurrence of the
marker; the text before it (stripped) IS the reply and the text after it
(lower-cased, trimmed) is the language code; if the marker is absent the
entire output is the reply; a code outside the four supported ones (or an
absent marker) yields the language code "en". -/
def specClaimC1Parse (full : String) : Option String × String :=
  if containsMarker full then
    let code := pyLower (pyStrip (afterLastMarker full))
    (some (pyStrip (beforeLastMarker full)),
     if code ∈ supportedCodes then code else "en")
  else
    (some full, "en")

/-- A part of the prompt assembled for the generation backend.  The long
system-instruction literal of `core/utils.py` lines 202-211 is opaque to
every claim, so it is represented by the `instructions` constructor. -/
inductive PromptPart where
  | text (s : String)
  | audioWav (data : List Nat)
  | instructions
deriving DecidableEq, Repr

/-- Environment of `safe_gemini_conversational_audio_or_text`: credentials,
library availability, the `normalize_audio` outcome (that helper catches
internally and returns `None` on failure, `core/utils.py` lines 135-144) and
the generation-backend call, whose failures the code observes via `except`. -/
structure GeminiEnv where
  hasApiKey : Bool
  genaiAvailable : Bool
  normalize : List Nat → Option String → Option (List Nat)
  generate : List PromptPart → Except Unit String

/-- `safe_gemini_conversational_audio_or_text` (`core/utils.py` lines
193-263).  Returns `(reply, language_code)`; the reply is `none` where the
Python returns `None`.  The `pyStrip` on the backend output is Python's
`response.text.strip()` at line 235. -/
def safe_gemini_conversational_audio_or_text (env : GeminiEnv)
    (audio_bytes : Option (List Nat)) (input_format : Option String)
    (text_input : Option String) : Option String × String :=
  if ¬ (env.hasApiKey ∧ env.genaiAvailable) then
    (some "I\x27m sorry, Gemini is not available.", "en")
  else if pyStrTruthy text_input then
    match env.generate [.text (text_input.getD ""), .instructions] with
    | .error _ => (none, "en")
    | .ok raw => parseGeminiOutput (pyStrip raw)
  else if pyBytesTruthy audio_bytes then
    match env.normalize (audio_bytes.getD []) input_format with
    | none => (none, "en")
    | some usable_audio_wav =>
      match env.generate [.audioWav usable_audio_wav, .instructions] with
      | .error _ => (none, "en")
      | .ok raw => parseGeminiOutput (pyStrip raw)
  else
    (none, "en")

/-- Fields extracted from the storage service's HTTP reply (`core/utils.py`
lines 68-71): the status code and `response.json().get("secure_url")`. -/
structure CloudResponse where
  status : Nat
  secureUrl : Option String
deriving DecidableEq, Repr

/-- Environment of `upload_to_cloudinary`: the three credential variables and
the outcome of the signed upload POST, whose failures the code observes via
`except` (`core/utils.py` lines 38-77). -/
structure CloudinaryEnv where
  cloudName : Option String
  apiKey : Option String
  apiSecret : Option String
  post : Except Unit CloudResponse

/-- `upload_to_cloudinary` (`core/utils.py` lines 38-77): `None` when any
credential is missing, the request raises, the status is not 200, or the
200 body carries no `secure_url`. -/
def upload_to_cloudinary (env : CloudinaryEnv) : Option String :=
  if ¬ (pyStrTruthy env.cloudName ∧ pyStrTruthy env.apiKey ∧ pyStrTruthy env.apiSecret) then
    none
  else
    match env.post with
    | .error _ => none
    | .ok r => if r.status = 200 then r.secureUrl else none

/-- The `voice_map` dictionary of `safe_tts` (`core/utils.py` lines 148-153). -/
def voice_map : List (String × String) :=
  [("en", "lucy"), ("yo", "sade"), ("ig", "ngozi"), ("ha", "amina")]

/-- `voice_map.get(language, "lucy")` (`core/utils.py` line 154). -/
def voiceFor (language : String) : String :=
  (voice_map.lookup language).getD "lucy"

/-- Environment of `safe_tts`: the synthesis backend call (and the write of
its bytes to the waveform file), the mp3 transcode, the storage environment,
and the uuid hex used in the temp-file names. -/
structure TtsEnv where
  spitchGenerate : String → String → String → Except Unit (List Nat)
  exportMp3 : List Nat → Except Unit (List Nat)
  cloudinary : CloudinaryEnv
  uuidHex : String

/-- The waveform temp path `f"/tmp/{prefix}_{uuid.uuid4().hex}.wav"`
(`core/utils.py` line 162). -/
def ttsWavPath (pfx uuidHex : String) : String :=
  "/tmp/" ++ pfx ++ "_" ++ uuidHex ++ ".wav"

/-- The mp3 temp path `wav_path.replace(".wav", ".mp3")` (`core/utils.py`
line 166; the prefixes in use contain no dot, so the single `".wav"`
occurrence replaced is the suffix). -/
def ttsMp3Path (pfx uuidHex : String) : String :=
  "/tmp/" ++ pfx ++ "_" ++ uuidHex ++ ".mp3"

/-- Result of one `safe_tts` call together with the temporary files that are
still on disk when it returns. -/
structure TtsRun where
  result : Option String
  tmpFiles : List String
deriving DecidableEq, Repr

/-- `safe_tts` (`core/utils.py` lines 146-173) with temp-file accounting.
The function writes the waveform file, transcodes it to mp3, uploads the
mp3, and contains no `os.unlink`/`os.remove` of either file on any path;
every exception collapses to a `none` result via the enclosing
`try`/`except`. -/
def safe_tts_run (env : TtsEnv) (text language pfx : String) : TtsRun :=
  let voice_id := voiceFor language
  match env.spitchGenerate text language voice_id with
  | .error _ => ⟨none, []⟩
  | .ok _wavBytes =>
    let wav_path := ttsWavPath pfx env.uuidHex
    match env.exportMp3 _wavBytes with
    | .error _ => ⟨none, [wav_path]⟩
    | .ok _mp3Bytes =>
      let mp3_path := ttsMp3Path pfx env.uuidHex
      ⟨upload_to_cloudinary env.cloudinary, [wav_path, mp3_path]⟩

/-- The value `safe_tts` returns to its callers. -/
def safe_tts (env : TtsEnv) (text language pfx : String) : Option String :=
  (safe_tts_run env text language pfx).result

/-- The text field extracted from the generation REST reply by `ask_gemini`
(`core/utils.py` line 129); `none` models a JSON body in which any step of
the `.get(...)` chain falls back to a default, which the code turns into
`""`. -/
structure GeminiJson where
  textPart : Option String
deriving DecidableEq, Repr

/-- Environment of `ask_gemini` (`core/utils.py` lines 79-132). -/
structure AskGeminiEnv where
  hasApiKey : Bool
  genaiAvailable : Bool
  post : Except Unit GeminiJson

/-- `ask_gemini` (`core/utils.py` lines 79-132): apology strings when the
key or library is missing or the request raises; otherwise the extracted
text field, defaulted to `""`. -/
def ask_gemini (env : AskGeminiEnv) (_prompt _lang : String) : String :=
  if ¬ env.hasApiKey then
    "I\x27m sorry, Gemini is not configured. Please set GEMINI_API_KEY."
  else if ¬ env.genaiAvailable then
    "I\x27m sorry, the Google Generative AI library is not installed."
  else
    match env.post with
    | .error _ => "I\x27m sorry, I couldn\x27t understand your request."
    | .ok j => j.textPart.getD ""

/-- A `QueryHistory` row as created by `AssistantQueryView.post`
(`core/views.py` lines 127-133); the spec calls it InteractionLogEntry. -/
structure LogEntry where
  user : String
  query : String
  response : String
  category : String
  language : String
deriving DecidableEq, Repr

/-- Body of the REST response of `AssistantQueryView.post`. -/
inductive RestBody where
  | err (msg : String)
  | ok (query response : String) (audio_url : Option String)
deriving DecidableEq, Repr

/-- One run of `AssistantQueryView.post`: HTTP status, JSON body, and the
`QueryHistory` rows created during the request. -/
structure RestRun where
  status : Nat
  body : RestBody
  logs : List LogEntry
deriving DecidableEq, Repr

/-- The `response` JSON field of a run, when the run returned one. -/
def RestRun.responseText : RestRun → Option String
  | ⟨_, .ok _ r _, _⟩ => some r
  | _ => none

/-- Environment of the REST adapter. -/
structure RestEnv where
  gemini : AskGeminiEnv
  tts : TtsEnv

/-- `AssistantQueryView.post` (`core/views.py` lines 114-139).  `text`,
`language` and `category` are the request fields, `none` when absent
(Python applies defaults "en" / "general" for the latter two). -/
def assistantQueryPost (env : RestEnv) (user : String)
    (text language category : Option String) : RestRun :=
  let language := language.getD "en"
  let category := category.getD "general"
  if ¬ pyStrTruthy text then
    ⟨400, .err "Missing query text", []⟩
  else
    let query := text.getD ""
    let ai_response := ask_gemini env.gemini query language
    let audio_url := safe_tts env.tts ai_response language "assistant"
    ⟨200, .ok query ai_response audio_url,
     [⟨user, query, ai_response, category, language⟩]⟩

/-- Outcome of one FFmpeg remux attempt in
`WhatsAppWebhookView.process_whatsapp_audio` (`core/views.py` lines
414-447): success with a non-empty output file, zero exit status with an
empty or missing output file, non-zero exit status, subprocess timeout, or
any other exception from the attempt. -/
inductive RemuxOutcome where
  | ok (wavData : List Nat)
  | emptyOut
  | fail
  | timeout
  | cmdError
deriving DecidableEq, Repr

/-- Whether the attempt produced a usable output file. -/
def RemuxOutcome.succeeded : RemuxOutcome → Bool
  | .ok _ => true
  | _ => false

/-- Environment of `process_whatsapp_audio`: the outcomes of the three
listed FFmpeg commands, and what `normalize_audio` would return were the
fallback reachable. -/
structure RemuxEnv where
  cmd1 : RemuxOutcome
  cmd2 : RemuxOutcome
  cmd3 : RemuxOutcome
  normalizeFallback : List Nat → String → Option (List Nat)

/-- One run of `process_whatsapp_audio`: the returned value, the temporary
files still on disk at return, and whether `normalize_audio` was actually
invoked. -/
structure RemuxRun where
  result : Option (List Nat)
  tmpFiles : List String
  normalizeCalled : Bool
deriving DecidableEq, Repr

/-- Add a path to the file-system model (idempotent). -/
def fsAdd (p : String) (fs : List String) : List String :=
  if p ∈ fs then fs else fs ++ [p]

/-- `os.unlink` / conditional unlink in the cleanup blocks: removes the
path if present. -/
def fsRemove (p : String) (fs : List String) : List String :=
  fs.filter (fun q => q ≠ p)

/-- The FFmpeg attempt loop of `core/views.py` lines 414-447 over the three
command outcomes, threading the set of existing temp files.  A successful attempt
reads the output file and unlinks both temp files (lines 426-438); a
zero-exit attempt with an empty output file leaves that file on disk and
continues; every failing attempt just continues. -/
def remuxLoop (input_path output_path : String) :
    List RemuxOutcome → List String → Option (List Nat) × List String
  | [], fs => (none, fs)
  | o :: rest, fs =>
    match o with
    | .ok wavData => (some wavData, fsRemove output_path (fsRemove input_path fs))
    | .emptyOut => remuxLoop input_path output_path rest (fsAdd output_path fs)
    | _ => remuxLoop input_path output_path rest fs

/-- The import executed at `core/views.py` line 451,
`from your_audio_module import normalize_audio`: the module
`your_audio_module` exists nowhere in the repository, so the import always
raises `ModuleNotFoundError`, which the enclosing `except` at line 464
catches. -/
def importYourAudioModule : Except Unit Unit := .error ()

/-- `WhatsAppWebhookView.process_whatsapp_audio` (`core/views.py` lines
376-476) with temp-file accounting.  The input temp file is written first;
then the three FFmpeg commands are attempted in order; if none succeeds the
code tries to import `normalize_audio` from `your_audio_module`, which
raises, and the outer `except` handler (lines 464-476) unlinks whichever
temp files still exist and returns `None`. -/
def process_whatsapp_audio (env : RemuxEnv) (audio_bytes : List Nat)
    (input_format : String) : RemuxRun :=
  let input_path := "/tmp/wa_input." ++ input_format
  let output_path := "/tmp/wa_input.wav"
  match remuxLoop input_path output_path [env.cmd1, env.cmd2, env.cmd3] [input_path] with
  | (some wavData, fs) => ⟨some wavData, fs, false⟩
  | (none, fs) =>
    match importYourAudioModule with
    | .ok _ =>
      let fallback_result := env.normalizeFallback audio_bytes input_format
      ⟨fallback_result, fsRemove output_path (fsRemove input_path fs), true⟩
    | .error _ =>
      ⟨none, fsRemove output_path (fsRemove input_path fs), false⟩

/-- Result of the engine-call-with-retry block of `WhatsAppWebhookView.post`
(`core/views.py` lines 254-272), together with the trace of engine calls
(audio bytes and declared format of each call, in order). -/
structure EngineAttemptRun where
  result : Except Unit (Option String × String)
  calls : List (List Nat × String)

/-- The engine-call-with-retry block of `WhatsAppWebhookView.post`
(`core/views.py` lines 254-272), parameterized over the callee: first call
on the remuxed audio as `"wav"`; if that call raises, exactly one retry on
the original bytes as `"ogg"`; if the retry also raises, the block fails
(the adapter then sends an apology). -/
def waAudioEngineStep (call : List Nat → String → Except Unit (Option String × String))
    (processed_audio_data audio_data : List Nat) : EngineAttemptRun :=
  match call processed_audio_data "wav" with
  | .ok r => ⟨.ok r, [(processed_audio_data, "wav")]⟩
  | .error _ =>
    match call audio_data "ogg" with
    | .ok r => ⟨.ok r, [(processed_audio_data, "wav"), (audio_data, "ogg")]⟩
    | .error _ => ⟨.error (), [(processed_audio_data, "wav"), (audio_data, "ogg")]⟩

/-- A Django `HttpResponse` as the webhook views build it: body string and
content type. -/
structure HttpResponse where
  body : String
  contentType : String
deriving DecidableEq, Repr

/-- TwiML voice documents emitted by `IVRHookView.post` (`core/views.py`
lines 170-211), with the insignificant indentation of the Python
triple-quoted literals elided.  The welcome prompt (lines 175-180). -/
def ivrWelcomeTwiml : String :=
  "<Response><Say voice=\"alice\">Welcome to VoiceBridge. Please speak after the beep.</Say><Record action=\"/api/assistant/ivr-hook\" method=\"POST\" maxLength=\"10\" /></Response>"

/-- The apology when the engine produced no reply (lines 187-191). -/
def ivrCantHearTwiml : String :=
  "<Response><Say voice=\"alice\">Sorry, we couldn\x27t hear you. Please try again.</Say></Response>"

/-- The apology when synthesis produced no audio URL (lines 196-200). -/
def ivrTroubleTwiml : String :=
  "<Response><Say voice=\"alice\">Sorry, I\x27m having trouble responding right now.</Say></Response>"

/-- The apology of the catch-all `except` (lines 207-211). -/
def ivrErrorTwiml : String :=
  "<Response><Say voice=\"alice\">Sorry, something went wrong. Please try again later.</Say></Response>"

/-- The play document of the success path (line 202). -/
def ivrPlayTwiml (audio_url : String) : String :=
  "<Response><Play>" ++ audio_url ++ "</Play></Response>"

/-- Environment of the IVR adapter: the recording fetch
(`requests.get(recording_url).content`, which may raise into the handler's
catch-all), the engine environment and the synthesis environment. -/
structure IvrEnv where
  fetchRecording : String → Except Unit (List Nat)
  gemini : GeminiEnv
  tts : TtsEnv

/-- `IVRHookView.post` (`core/views.py` lines 170-211). -/
def ivrPost (env : IvrEnv) (recording_url : Option String) : HttpResponse :=
  if ¬ pyStrTruthy recording_url then
    ⟨ivrWelcomeTwiml, "text/xml"⟩
  else
    match env.fetchRecording (recording_url.getD "") with
    | .error _ => ⟨ivrErrorTwiml, "text/xml"⟩
    | .ok audio_data =>
      let (ai_response, lang) :=
        safe_gemini_conversational_audio_or_text env.gemini (some audio_data) (some "wav") none
      if ¬ pyStrTruthy ai_response then
        ⟨ivrCantHearTwiml, "text/xml"⟩
      else
        match safe_tts env.tts (ai_response.getD "") lang "ivr" with
        | none => ⟨ivrTroubleTwiml, "text/xml"⟩
        | some audio_url => ⟨ivrPlayTwiml audio_url, "text/xml"⟩

/-- One outbound WhatsApp message as handed to the messaging client
(`send_whatsapp_audio` / `send_whatsapp_message`, `core/utils.py` lines
265-320): recipient, body text, optional media URL. -/
structure SentMsg where
  toNumber : String
  body : String
  media : Option String
deriving DecidableEq, Repr

/-- `str(MessagingResponse())`: the empty TwiML acknowledgment every code
path of `WhatsAppWebhookView.post` returns. -/
def twimlAck : String := "<?xml version=\"1.0\" encoding=\"UTF-8\"?><Response />"

/-- The acknowledgment response (`HttpResponse(str(twiml_response),
content_type='text/xml')`). -/
def ackResponse : HttpResponse := ⟨twimlAck, "text/xml"⟩

/-- Apology texts of `WhatsAppWebhookView.post`, in source order. -/
def waMsgNoAccess : String :=
  "Sorry, I couldn\x27t access your audio message. Can you try again?"

/-- Apology when the media download raised (line 244). -/
def waMsgNoDownload : String :=
  "Sorry, I couldn\x27t download your audio message. Can you try again?"

/-- Apology when the audio-repair step returned nothing (line 251). -/
def waMsgBadFormat : String :=
  "I couldn\x27t process your audio format. Could you try sending a text message instead?"

/-- Apology when both engine attempts raised (line 271). -/
def waMsgAudioTrouble : String :=
  "I had trouble understanding your audio. Could you try sending a text message instead?"

/-- Apology when the engine returned an empty reply for audio (line 276). -/
def waMsgNothingHeard : String :=
  "I couldn\x27t understand anything in your audio message. Could you try speaking more clearly or send a text?"

/-- Apology of the audio path's catch-all (line 281). -/
def waMsgUnexpected : String :=
  "There was an unexpected error with your audio message. Please try a shorter message or use text."

/-- Apology when the engine returned no reply for text (line 289). -/
def waMsgTextFail : String :=
  "Sorry, I couldn\x27t understand your text message. Can you rephrase?"

/-- Prompt when the webhook carried neither audio nor text (line 294). -/
def waMsgNoInput : String :=
  "I didn\x27t receive any message. Please send an audio or text message."

/-- Apology of the delivery stage when no reply exists (line 324). -/
def waMsgNoResponse : String :=
  "I\x27m sorry, I couldn\x27t generate a response at this time. Please try again."

/-- Apology of the delivery stage's catch-all (line 331). -/
def waMsgSendError : String :=
  "An unexpected error occurred while trying to send my response. Please try again later."

/-- Environment of the WhatsApp adapter. -/
structure WaEnv where
  download : Except Unit (Option (List Nat))
  remux : RemuxEnv
  gemini : GeminiEnv
  tts : TtsEnv

/-- One run of `WhatsAppWebhookView.post`: the outbound messages handed to
the messaging client, in order, and the HTTP response returned to the
transport. -/
structure WaRun where
  sent : List SentMsg
  response : HttpResponse
deriving DecidableEq, Repr

/-- The delivery stage of `WhatsAppWebhookView.post` (`core/views.py` lines
297-327): synthesize; on a URL send an audio message captioned with the
reply plus a separate text message; on synthesis failure send a text-only
message; with no reply send a generic apology. -/
def waDeliver (tts : TtsEnv) (user_phone : String) (ai_response : Option String)
    (lang : String) : List SentMsg :=
  if pyStrTruthy ai_response then
    let r := ai_response.getD ""
    match safe_tts tts r lang "wa" with
    | some audio_reply_url =>
      [⟨user_phone, r, some audio_reply_url⟩, ⟨user_phone, r, none⟩]
    | none =>
      [⟨user_phone, r, none⟩]
  else
    [⟨user_phone, waMsgNoResponse, none⟩]

/-- `WhatsAppWebhookView.post` (`core/views.py` lines 216-332).  The engine
is `safe_gemini_conversational_audio_or_text`, which catches internally and
never raises, wrapped as an always-`ok` callee of `waAudioEngineStep` (the
adapter is nonetheless written to retry on an exception). -/
def whatsAppPost (env : WaEnv) (media_type : Option String)
    (media_url0 : Option String) (body_text : Option String)
    (user_phone : String) : WaRun :=
  let audio_url :=
    if pyStrTruthy media_type ∧ pyStartsWith (media_type.getD "") "audio" then
      media_url0
    else none
  if pyStrTruthy audio_url then
    match env.download with
    | .error _ => ⟨[⟨user_phone, waMsgNoDownload, none⟩], ackResponse⟩
    | .ok dl =>
      if ¬ pyBytesTruthy dl then
        ⟨[⟨user_phone, waMsgNoAccess, none⟩], ackResponse⟩
      else
        let audio_data := dl.getD []
        let processed := process_whatsapp_audio env.remux audio_data "ogg"
        if ¬ pyBytesTruthy processed.result then
          ⟨[⟨user_phone, waMsgBadFormat, none⟩], ackResponse⟩
        else
          let processed_audio_data := processed.result.getD []
          let step := waAudioEngineStep
            (fun b fmt =>
              .ok (safe_gemini_conversational_audio_or_text env.gemini (some b) (some fmt) none))
            processed_audio_data audio_data
          match step.result with
          | .error _ => ⟨[⟨user_phone, waMsgAudioTrouble, none⟩], ackResponse⟩
          | .ok (ai_response, lang) =>
            if ¬ pyStrTruthy ai_response then
              ⟨[⟨user_phone, waMsgNothingHeard, none⟩], ackResponse⟩
            else
              ⟨waDeliver env.tts user_phone ai_response lang, ackResponse⟩
  else if pyStrTruthy body_text then
    let (ai_response, lang) :=
      safe_gemini_conversational_audio_or_text env.gemini none none body_text
    if ¬ pyStrTruthy ai_response then
      ⟨[⟨user_phone, waMsgTextFail, none⟩], ackResponse⟩
    else
      ⟨waDeliver env.tts user_phone ai_response lang, ackResponse⟩
  else
    ⟨[⟨user_phone, waMsgNoInput, none⟩], ackResponse⟩

/-- The single-apology texts a `WhatsAppWebhookView.post` run can emit on
its failure paths, in source order. -/
def waApologies : List String :=
  [waMsgNoDownload, waMsgNoAccess, waMsgBadFormat, waMsgAudioTrouble,
   waMsgNothingHeard, waMsgTextFail, waMsgNoInput]

/-- Concrete environments used for the instantiated statements below: a
storage environment with credentials whose upload succeeds. -/
def cloudEnvOK : CloudinaryEnv :=
  ⟨some "cloud", some "key", some "secret", .ok ⟨200, some "https://cdn/u.mp3"⟩⟩

/-- A storage environment with every credential missing. -/
def cloudEnvNoCreds : CloudinaryEnv := ⟨none, none, none, .error ()⟩

/-- A synthesis environment in which every step succeeds. -/
def ttsEnvOK : TtsEnv := ⟨fun _ _ _ => .ok [0], fun _ => .ok [1], cloudEnvOK, "deadbeef"⟩

/-- A synthesis environment whose backend call raises. -/
def ttsEnvSpitchFail : TtsEnv := ⟨fun _ _ _ => .error (), fun _ => .ok [1], cloudEnvOK, "deadbeef"⟩

/-- A synthesis environment whose mp3 transcode raises. -/
def ttsEnvExportFail : TtsEnv := ⟨fun _ _ _ => .ok [0], fun _ => .error (), cloudEnvOK, "deadbeef"⟩

/-- A synthesis environment whose storage upload is rejected. -/
def ttsEnvUploadFail : TtsEnv := ⟨fun _ _ _ => .ok [0], fun _ => .ok [1], cloudEnvNoCreds, "deadbeef"⟩

/-- An engine environment whose backend replies in Yoruba with the marker. -/
def geminiEnvYo : GeminiEnv :=
  ⟨true, true, fun b _ => some b, fun _ => .ok "Bawo ni! Language Code: yo"⟩

/-- An engine environment with no API key. -/
def geminiEnvNoKey : GeminiEnv := ⟨false, true, fun b _ => some b, fun _ => .ok "x"⟩

/-- An engine environment whose backend call raises. -/
def geminiEnvRaise : GeminiEnv := ⟨true, true, fun b _ => some b, fun _ => .error ()⟩

/-- A remux environment in which all three FFmpeg attempts fail while the
generic `normalize_audio` would have succeeded on the original bytes. -/
def remuxEnvAllFail : RemuxEnv := ⟨.fail, .timeout, .emptyOut, fun b _ => some b⟩

/-- An IVR environment whose fetch and engine succeed but synthesis fails. -/
def ivrEnvTtsFail : IvrEnv := ⟨fun _ => .ok [5], geminiEnvYo, ttsEnvSpitchFail⟩

/-- A WhatsApp environment with a working engine and failing synthesis. -/
def waEnvTextTtsFail : WaEnv := ⟨.ok (some [9]), remuxEnvAllFail, geminiEnvYo, ttsEnvSpitchFail⟩

/-- A REST environment whose generation backend answers 200 with a JSON
carrying no text part (`ask_gemini` then extracts `""`). -/
def restEnvEmptyText : RestEnv := ⟨⟨true, true, .ok ⟨none⟩⟩, ttsEnvOK⟩

/-- A REST generation environment whose HTTP call raises. -/
def askGeminiEnvRaise : AskGeminiEnv := ⟨true, true, .error ()⟩

/-- A REST environment whose generation backend answers with real text. -/
def restEnvGoodText : RestEnv :=
  ⟨⟨true, true, .ok ⟨some "Malaria is an illness spread by mosquitoes."⟩⟩, ttsEnvOK⟩

set_option maxRecDepth 10000

/-- Helper: a `none` reply from the parser always comes paired with the
default language code "en". -/
theorem parseGeminiOutput_none_en (full : String) :
    (parseGeminiOutput full).1 = none → parseGeminiOutput full = (none, "en") := by
  unfold parseGeminiOutput
  by_cases hm : containsMarker full <;> simp only [hm, if_true, if_false, Bool.false_eq_true]
  · by_cases he : pyStrip (beforeLastMarker full) = "" <;> simp [he]
  · by_cases hf : full = "" <;> simp [hf]

/-- Helper: the parser never returns a successful-but-empty reply. -/
theorem parseGeminiOutput_ne_some_empty (full : String) :
    (parseGeminiOutput full).1 ≠ some "" := by
  unfold parseGeminiOutput
  by_cases hm : containsMarker full <;> simp only [hm, if_true, if_false, Bool.false_eq_true]
  · by_cases he : pyStrip (beforeLastMarker full) = "" <;> simp [he]
  · by_cases hf : full = "" <;> simp [hf]

/-- Helper: on every output whose parsed reply text is non-empty, the
implemented parser agrees with the claimed parsing rule. -/
theorem parse_eq_spec_of_nonempty (full : String) (h : rawReplyOf full ≠ "") :
    parseGeminiOutput full = specClaimC1Parse full := by
  unfold parseGeminiOutput specClaimC1Parse rawReplyOf at *
  by_cases hm : containsMarker full <;>
    simp only [hm, if_true, if_false, Bool.false_eq_true] at * <;> simp [h]

/-- Helper: on every output whose parsed reply text is empty, the parser
returns the failure pair `(none, "en")`. -/
theorem parse_of_rawReply_empty (full : String) (h : rawReplyOf full = "") :
    parseGeminiOutput full = (none, "en") := by
  unfold parseGeminiOutput rawReplyOf at *
  by_cases hm : containsMarker full <;>
    simp only [hm, if_true, if_false, Bool.false_eq_true] at * <;> simp [h]

/-- Helper: a truthy optional string, defaulted, is non-empty. -/
theorem pyStrTruthy_getD (o : Option String) (h : pyStrTruthy o = true) : o.getD "" ≠ "" := by
  cases o with
  | none => simp [pyStrTruthy] at h
  | some s => simpa [pyStrTruthy] using h

/-- Helper: the WhatsApp delivery stage never sends a media-less message
with an empty body. -/
theorem waDeliver_text_nonempty (tts : TtsEnv) (user_phone : String)
    (ai_response : Option String) (lang : String) :
    ∀ m ∈ waDeliver tts user_phone ai_response lang, m.media = none → m.body ≠ "" := by
  intro m hm hmed
  unfold waDeliver at hm
  by_cases h : pyStrTruthy ai_response = true
  · simp only [h, if_true] at hm
    cases ht : safe_tts tts (ai_response.getD "") lang "wa" <;> rw [ht] at hm <;>
      simp at hm
    · subst hm; exact pyStrTruthy_getD _ h
    · rcases hm with hm | hm
      · subst hm; simp at hmed
      · subst hm; exact pyStrTruthy_getD _ h
  · simp only [h, if_false, Bool.false_eq_true] at hm
    simp at hm; subst hm; dsimp only; decide

/-- Claim C1 (counterexample): the claim fails as stated.  On the raw
backend output `"Language Code: yo"` the text before the last marker strips
to the empty string; the implementation then discards the parsed supported
code "yo" and returns `(None, "en")`, while the claimed rule demands the
reply `""` and the language code "yo". -/
theorem c1_marker_split_counterexample :
    parseGeminiOutput "Language Code: yo" ≠ specClaimC1Parse "Language Code: yo" ∧
    parseGeminiOutput "Language Code: yo" = (none, "en") ∧
    specClaimC1Parse "Language Code: yo" = (some "", "yo") := by
  decide

/-- Claim C1 (amended): the parser splits on the last occurrence of the
literal marker "Language Code:", the stripped text before it is the reply,
the lower-cased trimmed text after it is the language code (defaulted to
"en" when the marker is absent or the code is unsupported) — provided the
parsed reply text is non-empty; when it is empty the engine instead fails
with `(None, "en")`, regardless of the parsed code. -/
theorem c1_marker_split_amended (full : String) :
    (rawReplyOf full ≠ "" → parseGeminiOutput full = specClaimC1Parse full) ∧
    (rawReplyOf full = "" → parseGeminiOutput full = (none, "en")) :=
  ⟨parse_eq_spec_of_nonempty full, parse_of_rawReply_empty full⟩

/-- Claim C1 (witness): the amended statement instantiated on concrete
backend outputs, one with a non-empty reply and one with an empty reply. -/
theorem c1_marker_split_amended_witness :
    parseGeminiOutput "Hello Language Code: yo" = specClaimC1Parse "Hello Language Code: yo" ∧
    parseGeminiOutput "Language Code: ha" = (none, "en") :=
  ⟨(c1_marker_split_amended "Hello Language Code: yo").1 (by decide),
   (c1_marker_split_amended "Language Code: ha").2 (by decide)⟩

/-- Claim C2: `safe_tts` never raises to its caller — a failure at any step
(synthesis backend error, transcode error, rejected or failed storage
upload, including missing storage credentials via
`upload_to_cloudinary`) yields `none`; when every step succeeds the result
is exactly the storage outcome; and when synthesis yields `none` for a
produced WhatsApp reply, the adapter still delivers a text-only message. -/
theorem c2_tts_collapses_to_null (env : TtsEnv) (text language pfx : String) :
    (env.spitchGenerate text language (voiceFor language) = .error () →
       safe_tts env text language pfx = none) ∧
    (∀ w, env.spitchGenerate text language (voiceFor language) = .ok w →
       env.exportMp3 w = .error () → safe_tts env text language pfx = none) ∧
    (∀ w m, env.spitchGenerate text language (voiceFor language) = .ok w →
       env.exportMp3 w = .ok m →
       safe_tts env text language pfx = upload_to_cloudinary env.cloudinary) ∧
    (upload_to_cloudinary env.cloudinary = none → safe_tts env text language pfx = none) ∧
    (∀ (wenv : WaEnv) (user_phone : String) (body_text : Option String) (r lang : String),
       pyStrTruthy body_text = true →
       safe_gemini_conversational_audio_or_text wenv.gemini none none body_text = (some r, lang) →
       r ≠ "" →
       safe_tts wenv.tts r lang "wa" = none →
       whatsAppPost wenv none none body_text user_phone
         = ⟨[⟨user_phone, r, none⟩], ackResponse⟩) := by
  refine ⟨?_, ?_, ?_, ?_, ?_⟩
  · intro h; simp [safe_tts, safe_tts_run, h]
  · intro w hw he; simp [safe_tts, safe_tts_run, hw, he]
  · intro w m hw hm; simp [safe_tts, safe_tts_run, hw, hm]
  · intro h
    cases hw : env.spitchGenerate text language (voiceFor language) with
    | error e => simp [safe_tts, safe_tts_run, hw]
    | ok w =>
      cases hm : env.exportMp3 w with
      | error e => simp [safe_tts, safe_tts_run, hw, hm]
      | ok m => simp [safe_tts, safe_tts_run, hw, hm, h]
  · intro wenv user_phone body_text r lang hb hg hr ht
    cases body_text with
    | none => simp [pyStrTruthy] at hb
    | some s =>
      simp [pyStrTruthy] at hb
      simp [whatsAppPost, pyStrTruthy, hb, hg, waDeliver, hr, ht]

/-- Claim C2 (witness): each failure mode instantiated on a concrete
environment, plus the end-to-end text-only WhatsApp delivery under failing
synthesis. -/
theorem c2_tts_collapses_to_null_witness :
    safe_tts ttsEnvSpitchFail "hello" "en" "wa" = none ∧
    safe_tts ttsEnvExportFail "hello" "en" "wa" = none ∧
    safe_tts ttsEnvOK "hello" "en" "wa" = upload_to_cloudinary ttsEnvOK.cloudinary ∧
    safe_tts ttsEnvUploadFail "hello" "en" "wa" = none ∧
    whatsAppPost waEnvTextTtsFail none none (some "hey") "+15550001111"
      = ⟨[⟨"+15550001111", "Bawo ni!", none⟩], ackResponse⟩ :=
  ⟨(c2_tts_collapses_to_null ttsEnvSpitchFail "hello" "en" "wa").1 rfl,
   (c2_tts_collapses_to_null ttsEnvExportFail "hello" "en" "wa").2.1 [0] rfl rfl,
   (c2_tts_collapses_to_null ttsEnvOK "hello" "en" "wa").2.2.1 [0] [1] rfl rfl,
   (c2_tts_collapses_to_null ttsEnvUploadFail "hello" "en" "wa").2.2.2.1 rfl,
   (c2_tts_collapses_to_null ttsEnvUploadFail "hello" "en" "wa").2.2.2.2
     waEnvTextTtsFail "+15550001111" (some "hey") "Bawo ni!" "yo"
     (by decide) (by decide) (by decide) (by decide)⟩

/-- Claim C3: for every inbound IVR or WhatsApp webhook request, whatever
the outcome of every internal stage, the handler returns a well-formed
channel response with content type text/xml — for IVR one of the four
voice documents or a play document, for WhatsApp always the empty TwiML
acknowledgment — and on WhatsApp the outbound traffic is either a single
apology message from the fixed apology set or the delivery of an actually
produced reply; no error ever propagates to the transport layer. -/
theorem c3_handlers_always_respond (ienv : IvrEnv) (recording_url : Option String)
    (wenv : WaEnv) (media_type media_url0 body_text : Option String) (user_phone : String) :
    ((ivrPost ienv recording_url).contentType = "text/xml" ∧
      ((ivrPost ienv recording_url).body = ivrWelcomeTwiml ∨
       (ivrPost ienv recording_url).body = ivrErrorTwiml ∨
       (ivrPost ienv recording_url).body = ivrCantHearTwiml ∨
       (ivrPost ienv recording_url).body = ivrTroubleTwiml ∨
       ∃ u, (ivrPost ienv recording_url).body = ivrPlayTwiml u)) ∧
    ((whatsAppPost wenv media_type media_url0 body_text user_phone).response = ackResponse ∧
      ((∃ msg ∈ waApologies,
          (whatsAppPost wenv media_type media_url0 body_text user_phone).sent
            = [⟨user_phone, msg, none⟩]) ∨
       (∃ ai lang, pyStrTruthy ai = true ∧
          (whatsAppPost wenv media_type media_url0 body_text user_phone).sent
            = waDeliver wenv.tts user_phone ai lang))) := by
  refine ⟨⟨?_, ?_⟩, ?_, ?_⟩
  · unfold ivrPost
    (repeat' split) <;> rfl
  · unfold ivrPost
    (repeat' split) <;>
      first
        | (left; rfl)
        | (right; left; rfl)
        | (right; right; left; rfl)
        | (right; right; right; left; rfl)
        | (right; right; right; right; exact ⟨_, rfl⟩)
  · unfold whatsAppPost
    dsimp only
    (repeat' split) <;> rfl
  · unfold whatsAppPost
    dsimp only
    (repeat' split) <;>
      first
        | (left; refine ⟨_, ?_, rfl⟩; decide)
        | (right; refine ⟨_, _, ?_, rfl⟩; simp_all)

/-- Claim C4: the WhatsApp audio path never actually falls back to the
generic `normalize_audio` transcoder.  When every FFmpeg remux attempt
fails, the `from your_audio_module import normalize_audio` at
`core/views.py` line 451 raises `ModuleNotFoundError` — that module exists
nowhere in the repository — so the handler returns `None` (and the caller
sends the format apology) without ever invoking the fallback, contradicting
the documented fallback intent of the surrounding code and the spec. -/
theorem c4_fallback_never_reached (env : RemuxEnv) (audio_bytes : List Nat) (input_format : String)
    (h1 : env.cmd1.succeeded = false) (h2 : env.cmd2.succeeded = false)
    (h3 : env.cmd3.succeeded = false) :
    (process_whatsapp_audio env audio_bytes input_format).result = none ∧
    (process_whatsapp_audio env audio_bytes input_format).normalizeCalled = false := by
  unfold process_whatsapp_audio
  cases hc1 : env.cmd1 <;> cases hc2 : env.cmd2 <;> cases hc3 : env.cmd3 <;>
    simp_all [RemuxOutcome.succeeded, remuxLoop, importYourAudioModule]

/-- Claim C4 (witness): a concrete run in which all three remux commands
fail while the generic transcoder would have succeeded on the original
bytes; the handler still returns `None` without calling it. -/
theorem c4_fallback_never_reached_witness :
    remuxEnvAllFail.cmd1.succeeded = false ∧
    remuxEnvAllFail.cmd2.succeeded = false ∧
    remuxEnvAllFail.cmd3.succeeded = false ∧
    remuxEnvAllFail.normalizeFallback [1, 2, 3] "ogg" = some [1, 2, 3] ∧
    (process_whatsapp_audio remuxEnvAllFail [1, 2, 3] "ogg").result = none ∧
    (process_whatsapp_audio remuxEnvAllFail [1, 2, 3] "ogg").normalizeCalled = false :=
  ⟨by decide, by decide, by decide, by decide,
   (c4_fallback_never_reached remuxEnvAllFail [1, 2, 3] "ogg" (by decide) (by decide) (by decide)).1,
   (c4_fallback_never_reached remuxEnvAllFail [1, 2, 3] "ogg" (by decide) (by decide) (by decide)).2⟩

/-- Claim C5: in the WhatsApp audio path, when the engine call on the
remuxed audio (declared "wav") raises, the adapter makes exactly one more
engine call, on the original unremuxed bytes with their native "ogg"
format, and its outcome (or failure) is the block's outcome; when the first
call succeeds no retry happens; never more than two engine calls occur. -/
theorem c5_engine_retry_exactly_once
    (call : List Nat → String → Except Unit (Option String × String))
    (processed_audio_data audio_data : List Nat) :
    (waAudioEngineStep call processed_audio_data audio_data).calls.length ≤ 2 ∧
    (call processed_audio_data "wav" = .error () →
      (waAudioEngineStep call processed_audio_data audio_data).calls
        = [(processed_audio_data, "wav"), (audio_data, "ogg")] ∧
      (waAudioEngineStep call processed_audio_data audio_data).result = call audio_data "ogg") ∧
    (∀ r, call processed_audio_data "wav" = .ok r →
      (waAudioEngineStep call processed_audio_data audio_data).calls
        = [(processed_audio_data, "wav")] ∧
      (waAudioEngineStep call processed_audio_data audio_data).result = .ok r) := by
  refine ⟨?_, ?_, ?_⟩
  · unfold waAudioEngineStep
    (repeat' split) <;> simp
  · intro h
    cases h2 : call audio_data "ogg" with
    | error e => cases e; simp [waAudioEngineStep, h, h2]
    | ok r => simp [waAudioEngineStep, h, h2]
  · intro r h
    simp [waAudioEngineStep, h]

/-- Claim C5 (witness): with an engine whose every call raises, the block
makes exactly the two calls, remuxed-as-wav then original-as-ogg. -/
theorem c5_engine_retry_exactly_once_witness :
    (waAudioEngineStep (fun _ _ => .error ()) [1] [2]).calls.length ≤ 2 ∧
    (waAudioEngineStep (fun _ _ => .error ()) [1] [2]).calls = [([1], "wav"), ([2], "ogg")] :=
  ⟨(c5_engine_retry_exactly_once (fun _ _ => .error ()) [1] [2]).1,
   ((c5_engine_retry_exactly_once (fun _ _ => .error ()) [1] [2]).2.1 rfl).1⟩

/-- Claim C6 (counterexample): the claim fails as stated.  `safe_tts`
contains no deletion of its temporary files on any path: a successful
synthesis returns the uploaded URL while both the waveform and the mp3
temp file remain on disk. -/
theorem c6_tmpfile_cleanup_counterexample :
    (safe_tts_run ttsEnvOK "hello" "en" "wa").result = some "https://cdn/u.mp3" ∧
    (safe_tts_run ttsEnvOK "hello" "en" "wa").tmpFiles
      = ["/tmp/wa_deadbeef.wav", "/tmp/wa_deadbeef.mp3"] := by
  decide

/-- Claim C6 (amended): temporary files created by the WhatsApp
audio-repair step `process_whatsapp_audio` are deleted on every exit path
(success, per-command failure, and the exception path through the dead
fallback import), but the TTS chain `safe_tts` deletes none of its
temporary files: whenever the synthesis backend succeeds, its waveform
temp file (at least) remains on disk when the call returns. -/
theorem c6_tmpfile_cleanup_amended (renv : RemuxEnv) (audio_bytes : List Nat)
    (tenv : TtsEnv) (text language pfx : String) :
    (process_whatsapp_audio renv audio_bytes "ogg").tmpFiles = [] ∧
    (∀ w, tenv.spitchGenerate text language (voiceFor language) = .ok w →
      ttsWavPath pfx tenv.uuidHex ∈ (safe_tts_run tenv text language pfx).tmpFiles) := by
  constructor
  · unfold process_whatsapp_audio
    cases renv.cmd1 <;> cases renv.cmd2 <;> cases renv.cmd3 <;>
      simp [remuxLoop, fsAdd, fsRemove, importYourAudioModule]
  · intro w hw
    cases hm : tenv.exportMp3 w with
    | error e => simp [safe_tts_run, hw, hm]
    | ok m => simp [safe_tts_run, hw, hm]

/-- Claim C6 (witness): the amended statement instantiated on a concrete
failing remux environment and a concrete successful synthesis. -/
theorem c6_tmpfile_cleanup_amended_witness :
    (process_whatsapp_audio remuxEnvAllFail [1] "ogg").tmpFiles = [] ∧
    ttsEnvOK.spitchGenerate "hello" "en" (voiceFor "en") = .ok [0] ∧
    ttsWavPath "wa" ttsEnvOK.uuidHex ∈ (safe_tts_run ttsEnvOK "hello" "en" "wa").tmpFiles :=
  ⟨(c6_tmpfile_cleanup_amended remuxEnvAllFail [1] ttsEnvOK "hello" "en" "wa").1,
   rfl,
   (c6_tmpfile_cleanup_amended remuxEnvAllFail [1] ttsEnvOK "hello" "en" "wa").2 [0] rfl⟩

/-- Claim C7: a backend output whose parsed reply text is empty after
marker parsing makes the engine fail with a null reply (paired with "en");
the parser never returns a successful result with empty reply text. -/
theorem c7_empty_reply_is_failure (full : String) :
    (rawReplyOf full = "" → parseGeminiOutput full = (none, "en")) ∧
    (parseGeminiOutput full).1 ≠ some "" :=
  ⟨parse_of_rawReply_empty full, parseGeminiOutput_ne_some_empty full⟩

/-- Claim C7 (witness): instantiated on the output `"Language Code: ig"`,
whose parsed reply text is empty. -/
theorem c7_empty_reply_is_failure_witness :
    rawReplyOf "Language Code: ig" = "" ∧
    parseGeminiOutput "Language Code: ig" = (none, "en") ∧
    (parseGeminiOutput "Language Code: ig").1 ≠ some "" :=
  ⟨by decide,
   (c7_empty_reply_is_failure "Language Code: ig").1 (by decide),
   (c7_empty_reply_is_failure "Language Code: ig").2⟩

/-- Claim C8: a reply is never delivered with both text and audio absent.
Every media-less WhatsApp message sent by the adapter has a non-empty body
(text-only fallback on synthesis failure included), and on IVR — which has
no text fallback — a reached reply whose synthesis yields no URL produces
the spoken apology document instead of a play instruction. -/
theorem c8_no_empty_delivery (wenv : WaEnv)
    (media_type media_url0 body_text : Option String) (user_phone : String)
    (ienv : IvrEnv) (recording_url : Option String) :
    (∀ m ∈ (whatsAppPost wenv media_type media_url0 body_text user_phone).sent,
       m.media = none → m.body ≠ "") ∧
    (∀ audio_data ai lang,
       pyStrTruthy recording_url = true →
       ienv.fetchRecording (recording_url.getD "") = .ok audio_data →
       safe_gemini_conversational_audio_or_text ienv.gemini (some audio_data) (some "wav") none
         = (some ai, lang) →
       ai ≠ "" →
       safe_tts ienv.tts ai lang "ivr" = none →
       ivrPost ienv recording_url = ⟨ivrTroubleTwiml, "text/xml"⟩) := by
  constructor
  · unfold whatsAppPost
    dsimp only
    (repeat' split) <;>
      first
        | (intro m hm hme; simp at hm; subst hm; dsimp only; decide)
        | exact waDeliver_text_nonempty _ _ _ _
  · intro audio_data ai lang hu hf hg hai ht
    cases recording_url with
    | none => simp [pyStrTruthy] at hu
    | some s =>
      simp [pyStrTruthy] at hu
      simp only [Option.getD_some] at hf
      simp [ivrPost, pyStrTruthy, hu, hf, hg, hai, ht]

/-- Claim C8 (witness): on a concrete WhatsApp text request under failing
synthesis, the one delivered media-less message carries the non-empty
reply; on a concrete IVR request under failing synthesis, the handler
answers with the spoken apology document. -/
theorem c8_no_empty_delivery_witness :
    (⟨"+15550001111", "Bawo ni!", none⟩ : SentMsg).body ≠ "" ∧
    ivrPost ivrEnvTtsFail (some "https://rec/1") = ⟨ivrTroubleTwiml, "text/xml"⟩ :=
  ⟨(c8_no_empty_delivery waEnvTextTtsFail none none (some "hey") "+15550001111"
      ivrEnvTtsFail (some "https://rec/1")).1
     ⟨"+15550001111", "Bawo ni!", none⟩ (by decide) rfl,
   (c8_no_empty_delivery waEnvTextTtsFail none none (some "hey") "+15550001111"
      ivrEnvTtsFail (some "https://rec/1")).2
     [5] "Bawo ni!" "yo" (by decide) rfl (by decide) (by decide) (by decide)⟩

/-- Claim C9 (counterexample): the claim fails as stated.  When the
generation backend answers HTTP 200 with a JSON carrying no text part,
`ask_gemini` extracts the default `""`, and the REST adapter delivers a 200
response whose `response` field is the empty string (while still writing
one log row), contradicting the claimed non-empty `response`. -/
theorem c9_rest_query_counterexample :
    (assistantQueryPost restEnvEmptyText "alice" (some "What is malaria?")
        (some "en") (some "health")).status = 200 ∧
    (assistantQueryPost restEnvEmptyText "alice" (some "What is malaria?")
        (some "en") (some "health")).responseText = some "" ∧
    (assistantQueryPost restEnvEmptyText "alice" (some "What is malaria?")
        (some "en") (some "health")).logs.length = 1 := by
  decide

/-- Claim C9 (amended): a missing (or empty) input text yields HTTP 400
with no log row; a present input yields HTTP 200, exactly one new log row
for the requesting user with the supplied category, and a JSON body with
the fields query, response and audio_url (the synthesis outcome, a URL or
null); the response text is non-empty whenever the generation call fails
or is unconfigured (apology strings) and equals the backend's extracted
text otherwise — which the code defaults to the empty string when the 200
JSON carries no text part. -/
theorem c9_rest_query_amended (env : RestEnv) (user : String)
    (text language category : Option String) :
    (¬ pyStrTruthy text = true →
       assistantQueryPost env user text language category
         = ⟨400, .err "Missing query text", []⟩) ∧
    (pyStrTruthy text = true →
       assistantQueryPost env user text language category
         = ⟨200,
            .ok (text.getD "")
              (ask_gemini env.gemini (text.getD "") (language.getD "en"))
              (safe_tts env.tts (ask_gemini env.gemini (text.getD "") (language.getD "en"))
                (language.getD "en") "assistant"),
            [⟨user, text.getD "", ask_gemini env.gemini (text.getD "") (language.getD "en"),
              category.getD "general", language.getD "en"⟩]⟩) ∧
    (pyStrTruthy text = true →
       (env.gemini.post = .error () ∨ env.gemini.hasApiKey = false ∨
        env.gemini.genaiAvailable = false) →
       (assistantQueryPost env user text language category).responseText ≠ some "") ∧
    (pyStrTruthy text = true → ∀ t, env.gemini.hasApiKey = true →
       env.gemini.genaiAvailable = true → env.gemini.post = .ok ⟨some t⟩ →
       (assistantQueryPost env user text language category).responseText = some t) := by
  refine ⟨?_, ?_, ?_, ?_⟩
  · intro h
    simp [assistantQueryPost, h]
  · intro h
    simp [assistantQueryPost, h]
  · intro h hfail
    by_cases hk : env.gemini.hasApiKey = true
    · by_cases hl : env.gemini.genaiAvailable = true
      · rcases hfail with hp | hp | hp
        · simp [assistantQueryPost, h, RestRun.responseText, ask_gemini, hk, hl, hp]
        · simp [hk] at hp
        · simp [hl] at hp
      · simp [assistantQueryPost, h, RestRun.responseText, ask_gemini, hk, hl]
    · simp [assistantQueryPost, h, RestRun.responseText, ask_gemini, hk]
  · intro h t hk hl hp
    simp [assistantQueryPost, h, RestRun.responseText, ask_gemini, hk, hl, hp]

/-- Claim C9 (witness): the amended statement instantiated on a missing
input, on a raising generation backend, and on a backend with real text. -/
theorem c9_rest_query_amended_witness :
    assistantQueryPost restEnvGoodText "alice" none (some "en") (some "health")
      = ⟨400, .err "Missing query text", []⟩ ∧
    (assistantQueryPost (⟨askGeminiEnvRaise, ttsEnvOK⟩ : RestEnv) "alice"
        (some "What is malaria?") (some "en") (some "health")).responseText ≠ some "" ∧
    (assistantQueryPost restEnvGoodText "alice" (some "What is malaria?")
        (some "en") (some "health")).responseText
      = some "Malaria is an illness spread by mosquitoes." :=
  ⟨(c9_rest_query_amended restEnvGoodText "alice" none (some "en") (some "health")).1
     (by decide),
   (c9_rest_query_amended (⟨askGeminiEnvRaise, ttsEnvOK⟩ : RestEnv) "alice"
       (some "What is malaria?") (some "en") (some "health")).2.2.1
     (by decide) (Or.inl rfl),
   (c9_rest_query_amended restEnvGoodText "alice" (some "What is malaria?")
       (some "en") (some "health")).2.2.2
     (by decide) "Malaria is an illness spread by mosquitoes." rfl rfl rfl⟩

/-- Claim C10: on every failure path of the conversational engine the
returned language code is exactly "en": a null reply is always paired with
"en" (this covers normalization failure, a raising backend call and an
empty parsed reply); missing credentials or library return the apology
reply with "en"; and a configured engine called with neither audio nor
text returns `(None, "en")` rather than raising. -/
theorem c10_failure_language_is_en (env : GeminiEnv)
    (a : Option (List Nat)) (f t : Option String) :
    ((safe_gemini_conversational_audio_or_text env a f t).1 = none →
      safe_gemini_conversational_audio_or_text env a f t = (none, "en")) ∧
    (¬ (env.hasApiKey ∧ env.genaiAvailable) →
      safe_gemini_conversational_audio_or_text env a f t
        = (some "I\x27m sorry, Gemini is not available.", "en")) ∧
    (env.hasApiKey ∧ env.genaiAvailable →
      safe_gemini_conversational_audio_or_text env none f none = (none, "en")) := by
  refine ⟨?_, ?_, ?_⟩
  · intro h
    unfold safe_gemini_conversational_audio_or_text at *
    by_cases hc : env.hasApiKey ∧ env.genaiAvailable
    · simp only [hc, not_true_eq_false, if_false] at *
      by_cases ht : pyStrTruthy t = true
      · simp only [ht, if_true] at *
        cases hg : env.generate [.text (t.getD ""), .instructions] with
        | error e => simp [hg]
        | ok raw => simp [hg] at h ⊢; exact parseGeminiOutput_none_en _ h
      · simp only [ht, if_false, Bool.not_eq_true] at *
        by_cases hb : pyBytesTruthy a = true
        · simp only [hb, if_true] at *
          cases hn : env.normalize (a.getD []) f with
          | none => simp [hn]
          | some w =>
            cases hg : env.generate [.audioWav w, .instructions] with
            | error e => simp [hn, hg]
            | ok raw => simp [hn, hg] at h ⊢; exact parseGeminiOutput_none_en _ h
        · simp only [hb, Bool.not_eq_true, if_false] at *
          rfl
    · simp [hc] at h
  · intro h
    unfold safe_gemini_conversational_audio_or_text
    simp [h]
  · intro h
    unfold safe_gemini_conversational_audio_or_text
    simp [h, pyStrTruthy, pyBytesTruthy]

/-- Claim C10 (witness): the three parts instantiated on concrete engine
environments — a raising backend, missing credentials, and a configured
engine called with no input at all. -/
theorem c10_failure_language_is_en_witness :
    safe_gemini_conversational_audio_or_text geminiEnvRaise none none (some "hi")
      = (none, "en") ∧
    safe_gemini_conversational_audio_or_text geminiEnvNoKey none none (some "hi")
      = (some "I\x27m sorry, Gemini is not available.", "en") ∧
    safe_gemini_conversational_audio_or_text geminiEnvYo none none none = (none, "en") :=
  ⟨(c10_failure_language_is_en geminiEnvRaise none none (some "hi")).1 (by decide),
   (c10_failure_language_is_en geminiEnvNoKey none none (some "hi")).2.1 (by decide),
   (c10_failure_language_is_en geminiEnvYo none none none).2.2 (by decide)⟩
